import Mathlib

/-!
Verification of the server-knocker repository: a shallow embedding of the
idle/reset timer, the process supervisor, the TCP proxy's dial
classification and byte-piping loop, the UDP proxy's per-client session
handling, and child spawning, together with theorems settling the spec's
claims about them.
-/

namespace ServerKnocker

/-- Events published by proxy tasks on the watch channel and consumed by the
supervisor (the enum in src/proxy/mod.rs lines 18-24, re-exported to main.rs
as ProxyEvent). -/
inductive ProxyEvent where
  | DestinationNotResponding
  | UnknownError
  | GotPacket
  | Nothing
  deriving DecidableEq, Repr

/-- Helper: concatenation of the lists produced by f over a list, in order
(used to embed iteration that emits a block of effects per element). -/
def concatMap {α β : Type} (f : α → List β) : List α → List β
  | [] => []
  | a :: l => f a ++ concatMap f l

/-! ## Timer (src/timer/mod.rs) -/

/-- One run of the timer task spawned by ResetSignal::run_after
(src/timer/mod.rs lines 38-56), viewed at the granularity of its select
loop over an idealized global clock.  The task keeps the deadline of its
current sleep of length duration; a reset observed at absolute time t
strictly before the deadline wins the race and restarts the sleep, moving
the deadline to t + duration; when no reset precedes the deadline the sleep
wins, the loop breaks, and the task fires at the deadline.  resets is the
ascending list of absolute times at which ResetGuard.reset is observed by
the loop; a reset at or after the deadline arrives after the task has
already fired and is a no-op.  The result is the list of times at which the
task fires. -/
def runAfterFires (duration : Nat) : List Nat → Nat → List Nat
  | [], deadline => [deadline]
  | t :: ts, deadline =>
      if t < deadline then runAfterFires duration ts (t + duration)
      else [deadline]

/-- Fire times of the timer task created at time 0 by run_after duration:
its first sleep's deadline is duration. -/
def timerFires (duration : Nat) (resets : List Nat) : List Nat :=
  runAfterFires duration resets duration

/-- Auxiliary: when every reset comes strictly less than duration after the
previous one (or after time c, for the first), the loop fires exactly at
the last reset plus duration. -/
theorem runAfterFires_eq_last (duration : Nat) :
    ∀ (resets : List Nat) (c : Nat),
      List.Chain (fun a b => a ≤ b ∧ b < a + duration) c resets →
      runAfterFires duration resets (c + duration) = [resets.getLastD c + duration]
  | [], c, _ => by simp [runAfterFires]
  | t :: ts, c, h => by
      rcases h with _ | ⟨⟨hle, hlt⟩, htl⟩
      rw [runAfterFires, if_pos hlt, List.getLastD_cons]
      exact runAfterFires_eq_last duration ts t htl

/-- C1: for every (possibly empty) sequence of reset calls on a timer
created by run_after duration, where each reset arrives strictly less than
duration after the previous reset (or after creation at time 0, for the
first), the timer task completes exactly once, at exactly the last reset
time plus duration — hence never before duration has elapsed since the
last reset, and never more than once. -/
theorem run_after_fires_once_after_last_reset (duration : Nat) (resets : List Nat)
    (h : List.Chain (fun a b => a ≤ b ∧ b < a + duration) 0 resets) :
    timerFires duration resets = [resets.getLastD 0 + duration] := by
  have := runAfterFires_eq_last duration resets 0 h
  simpa [timerFires] using this

/-- Witness for C1 at duration 5 and resets at times 3, 6, 9. -/
theorem run_after_fires_once_after_last_reset_witness :
    List.Chain (fun a b => a ≤ b ∧ b < a + 5) 0 [3, 6, 9] ∧
      timerFires 5 [3, 6, 9] = [14] :=
  ⟨by simp [List.chain_cons], run_after_fires_once_after_last_reset 5 [3, 6, 9]
    (by simp [List.chain_cons])⟩

/-! ## Child processes and the supervisor's timer-expiry branch
(src/child/mod.rs and src/main.rs lines 90-111) -/

/-- Observable side effects of the supervisor's teardown of one child. -/
inductive Action where
  | sigterm (sid : Int)
  | scheduleKill (sid : Int) (grace : Nat)
  | wait (sid : Int)
  | logKillError (sid : Int)
  | logWaitError (sid : Int)
  | logStatus (sid : Int)
  deriving DecidableEq, Repr

/-- A tracked child as the supervisor sees it: its session id (equal to its
pid, since spawn_child calls setsid in the pre_exec hook), plus the
environment's answers for the two fallible operations the teardown
performs — whether killpg(sid, SIGTERM) succeeds and whether wait()
returns an exit status. -/
structure ChildProc where
  sid : Int
  killOk : Bool
  waitOk : Bool
  deriving DecidableEq, Repr

/-- Teardown of one child in the timer-expiry branch (main.rs lines 92-109):
kill_process_group(SIGTERM); on success, try_kill_process_group_after
(grace, SIGKILL) — its result discarded — then wait(), whose error is
logged but not propagated; on kill failure, the error is logged and the
closure returns, moving on to the next child. -/
def teardownChild (grace : Nat) (c : ChildProc) : List Action :=
  if c.killOk then
    [Action.sigterm c.sid, Action.scheduleKill c.sid grace, Action.wait c.sid] ++
      (if c.waitOk then [Action.logStatus c.sid] else [Action.logWaitError c.sid])
  else
    [Action.sigterm c.sid, Action.logKillError c.sid]

/-- The whole timer-expiry branch (main.rs lines 90-111):
children.drain(0..).for_each(teardown) — every tracked child is torn down
in order and the tracked list is left empty. -/
def handleTimerExpiry (grace : Nat) (children : List ChildProc) :
    List Action × List ChildProc :=
  (concatMap (teardownChild grace) children, [])

/-- Helper: whatever one element of a list contributes via concatMap is a
contiguous, in-order sublist of the whole concatenation. -/
theorem sublist_concatMap_of_mem {α β : Type} (f : α → List β) {l : List α}
    {a : α} (h : a ∈ l) : List.Sublist (f a) (concatMap f l) := by
  induction l with
  | nil => cases h
  | cons b l ih =>
      rcases List.mem_cons.mp h with rfl | h2
      · simp [concatMap]
      · simpa [concatMap] using (ih h2).trans
          (List.sublist_append_right (f b) (concatMap f l))

/-- C2: when the idle timer expires, every tracked child gets a SIGTERM to
its process group; each child whose SIGTERM delivery succeeds has, in
order, a delayed SIGKILL to the same group scheduled with the grace period
and is then synchronously waited for; a failed wait is logged, not fatal;
a signal-delivery failure for one child leaves every other child's
teardown intact (the SIGTERM attempt of every tracked child appears
regardless of the others' outcomes); and the tracked set is empty after
the branch. -/
theorem timer_expiry_tears_down_all_children (grace : Nat) (children : List ChildProc) :
    (handleTimerExpiry grace children).2 = [] ∧
    (∀ c ∈ children, Action.sigterm c.sid ∈ (handleTimerExpiry grace children).1) ∧
    (∀ c ∈ children, c.killOk = true →
       List.Sublist
         [Action.sigterm c.sid, Action.scheduleKill c.sid grace, Action.wait c.sid]
         (handleTimerExpiry grace children).1) ∧
    (∀ c ∈ children, c.killOk = true → c.waitOk = false →
       Action.logWaitError c.sid ∈ (handleTimerExpiry grace children).1) := by
  refine ⟨rfl, ?_, ?_, ?_⟩
  · intro c hc
    have hsub := sublist_concatMap_of_mem (teardownChild grace) hc
    apply hsub.mem
    by_cases hk : c.killOk <;> simp [teardownChild, hk]
  · intro c hc hk
    have hsub := sublist_concatMap_of_mem (teardownChild grace) hc
    refine List.Sublist.trans ?_ hsub
    by_cases hw : c.waitOk <;> simp [teardownChild, hk, hw]
  · intro c hc hk hw
    have hsub := sublist_concatMap_of_mem (teardownChild grace) hc
    apply hsub.mem
    simp [teardownChild, hk, hw]

/-- Witness for C2: two children, the first with failing SIGTERM delivery
and the second with a failing wait; the second is still fully torn down
and the tracked set ends empty. -/
theorem timer_expiry_tears_down_all_children_witness :
    (handleTimerExpiry 9 [⟨4, false, true⟩, ⟨7, true, false⟩]).2 = [] ∧
      Action.sigterm 7 ∈ (handleTimerExpiry 9 [⟨4, false, true⟩, ⟨7, true, false⟩]).1 ∧
      Action.logWaitError 7 ∈ (handleTimerExpiry 9 [⟨4, false, true⟩, ⟨7, true, false⟩]).1 :=
  ⟨(timer_expiry_tears_down_all_children 9 [⟨4, false, true⟩, ⟨7, true, false⟩]).1,
   (timer_expiry_tears_down_all_children 9 [⟨4, false, true⟩, ⟨7, true, false⟩]).2.1
     ⟨7, true, false⟩ (by decide),
   (timer_expiry_tears_down_all_children 9 [⟨4, false, true⟩, ⟨7, true, false⟩]).2.2.2
     ⟨7, true, false⟩ (by decide) rfl rfl⟩

/-! ## TCP proxy: dial classification and accept loop
(src/proxy/mod.rs lines 129-189) -/

/-- The io::ErrorKind values a dial (TcpSocket::connect) can fail with, as
far as the classification in TCPProxy::start distinguishes them: the five
kinds matched by the first arm of the match on e.kind() at lines 147-152,
plus representatives of the catch-all arm. -/
inductive ErrorKind where
  | BrokenPipe
  | ConnectionAborted
  | TimedOut
  | ConnectionReset
  | ConnectionRefused
  | NotFound
  | PermissionDenied
  | AddrInUse
  | AddrNotAvailable
  | InvalidInput
  | OutOfMemory
  deriving DecidableEq, Repr

/-- The transient bucket: exactly the error kinds matched by the first arm
of the match in TCPProxy::start (proxy/mod.rs lines 148-152). -/
def isTransient : ErrorKind → Bool
  | ErrorKind.BrokenPipe => true
  | ErrorKind.ConnectionAborted => true
  | ErrorKind.TimedOut => true
  | ErrorKind.ConnectionReset => true
  | ErrorKind.ConnectionRefused => true
  | _ => false

/-- Outcome of one dial of the destination for one accepted connection. -/
inductive DialAttempt where
  | ok
  | err (k : ErrorKind)
  deriving DecidableEq, Repr

/-- The accept loop of TCPProxy::start with can_resume = None
(proxy/mod.rs lines 132-188), one dial per accepted inbound connection,
driven by the list of dial outcomes for successive connections.  On a
successful dial the two pipe_sockets tasks are spawned and the loop
accepts the next connection (events published by those tasks are modelled
separately by pipeSockets); on a dial error in the transient bucket the
loop publishes DestinationNotResponding and — no readiness gate being
configured — abandons this connection and continues accepting; on any
other dial error it publishes UnknownError and breaks out of the inner
loop with Err(e), which the ? operator propagates out of start.  Returns
the events the accept loop itself published and the loop's result; an
exhausted attempt list means the loop is still accepting. -/
def tcpAcceptLoop : List DialAttempt → List ProxyEvent × Except ErrorKind Unit
  | [] => ([], Except.ok ())
  | DialAttempt.ok :: rest => tcpAcceptLoop rest
  | DialAttempt.err k :: rest =>
      if isTransient k then
        (ProxyEvent.DestinationNotResponding :: (tcpAcceptLoop rest).1,
          (tcpAcceptLoop rest).2)
      else
        ([ProxyEvent.UnknownError], Except.error k)

/-- C3: a dial failure of a kind in the transient set — exactly
{connection refused, connection reset, connection aborted, broken pipe,
timed out} — publishes DestinationNotResponding and (no readiness gate
configured) abandons that connection, the accept loop continuing exactly
as it would on the remaining connections; a dial failure of any other
kind publishes UnknownError and the dial error propagates out of start,
terminating the proxy with no further connection processed. -/
theorem tcp_dial_classification (k : ErrorKind) (rest : List DialAttempt) :
    (isTransient k = true →
       tcpAcceptLoop (DialAttempt.err k :: rest) =
         (ProxyEvent.DestinationNotResponding :: (tcpAcceptLoop rest).1,
           (tcpAcceptLoop rest).2)) ∧
    (isTransient k = false →
       tcpAcceptLoop (DialAttempt.err k :: rest) =
         ([ProxyEvent.UnknownError], Except.error k)) ∧
    (isTransient k = true ↔
       k ∈ [ErrorKind.ConnectionRefused, ErrorKind.ConnectionReset,
             ErrorKind.ConnectionAborted, ErrorKind.BrokenPipe, ErrorKind.TimedOut]) := by
  refine ⟨fun h => ?_, fun h => ?_, ?_⟩
  · simp [tcpAcceptLoop, h]
  · simp [tcpAcceptLoop, h]
  · cases k <;> simp [isTransient]

/-- Witness for C3: a refused connection is transient and the loop
continues; an out-of-memory dial error is fatal and propagates. -/
theorem tcp_dial_classification_witness :
    tcpAcceptLoop [DialAttempt.err ErrorKind.ConnectionRefused] =
        ([ProxyEvent.DestinationNotResponding], Except.ok ()) ∧
      tcpAcceptLoop [DialAttempt.err ErrorKind.OutOfMemory, DialAttempt.ok] =
        ([ProxyEvent.UnknownError], Except.error ErrorKind.OutOfMemory) :=
  ⟨(tcp_dial_classification ErrorKind.ConnectionRefused []).1 rfl,
   (tcp_dial_classification ErrorKind.OutOfMemory [DialAttempt.ok]).2.1 rfl⟩

/-! ## Readiness gate and the DestinationNotResponding branch
(src/main.rs lines 82-84 and 115-121) -/

/-- State of the readiness gate, the Arc of Notify created in main.rs
line 82 (can_proxy_resume): permit records whether an unconsumed
notification permit is stored, waiters counts the connections currently
parked in notified().await (proxy/mod.rs line 158). -/
structure NotifyState where
  permit : Bool
  waiters : Nat
  deriving DecidableEq, Repr

/-- Modelled from the documented semantics of the notify_one method of the
Notify type the gate is built on, the call made at main.rs line 120: if a
task is currently waiting, exactly one waiting task is woken; otherwise a
single permit is stored (later waits consume it).  Returns the new gate
state and the number of parked waiters released by the call. -/
def notifyOne (s : NotifyState) : NotifyState × Nat :=
  if s.waiters = 0 then ({ s with permit := true }, 0)
  else ({ s with waiters := s.waiters - 1 }, 1)

/-- Result of the supervisor's DestinationNotResponding branch. -/
structure DnrResult where
  children : List ChildProc
  gate : NotifyState
  released : Nat
  deriving DecidableEq, Repr

/-- The DestinationNotResponding branch of the supervisor (main.rs lines
115-121): spawn a new child (newChild models the successful spawn), push
it onto the tracked list, and call notify_one on the readiness gate. -/
def handleDestinationNotResponding (children : List ChildProc) (newChild : ChildProc)
    (gate : NotifyState) : DnrResult :=
  { children := children ++ [newChild]
    gate := (notifyOne gate).1
    released := (notifyOne gate).2 }

/-- Counterexample to C4: with two connections parked on the readiness
gate, the wake issued by a successful respawn releases exactly one of
them — one waiter remains parked, so the wake is not a broadcast
releasing every parked connection. -/
theorem readiness_wake_not_broadcast :
    (handleDestinationNotResponding [] ⟨3, true, true⟩ ⟨false, 2⟩).released = 1 ∧
      (handleDestinationNotResponding [] ⟨3, true, true⟩ ⟨false, 2⟩).gate.waiters = 1 ∧
      ¬ (handleDestinationNotResponding [] ⟨3, true, true⟩ ⟨false, 2⟩).released = 2 := by
  refine ⟨rfl, rfl, ?_⟩
  decide

/-- C4 (amended): the readiness wake issued when the supervisor handles
DestinationNotResponding and the respawn succeeds is a single wake, not a
broadcast: it releases exactly one parked connection when at least one is
parked (leaving the rest parked), and stores a single permit when none
is; the new child is appended to the tracked set either way. -/
theorem readiness_wake_releases_one (children : List ChildProc)
    (newChild : ChildProc) (gate : NotifyState) :
    (gate.waiters = 0 →
       (handleDestinationNotResponding children newChild gate).released = 0 ∧
       (handleDestinationNotResponding children newChild gate).gate.permit = true) ∧
    (0 < gate.waiters →
       (handleDestinationNotResponding children newChild gate).released = 1 ∧
       (handleDestinationNotResponding children newChild gate).gate.waiters
         = gate.waiters - 1) ∧
    (handleDestinationNotResponding children newChild gate).children
      = children ++ [newChild] := by
  refine ⟨fun h => ?_, fun h => ?_, rfl⟩
  · simp [handleDestinationNotResponding, notifyOne, h]
  · have h0 : ¬ gate.waiters = 0 := Nat.pos_iff_ne_zero.mp h
    simp [handleDestinationNotResponding, notifyOne, h0]

/-- Witness for C4's amended theorem at a gate with three parked waiters. -/
theorem readiness_wake_releases_one_witness :
    (handleDestinationNotResponding [] ⟨5, true, true⟩ ⟨false, 3⟩).released = 1 ∧
      (handleDestinationNotResponding [] ⟨5, true, true⟩ ⟨false, 3⟩).gate.waiters = 2 :=
  (readiness_wake_releases_one [] ⟨5, true, true⟩ ⟨false, 3⟩).2.1 (by decide)

/-! ## The supervisor's control loop and whole-program outcome
(src/main.rs lines 85-139 and 143-159) -/

/-- What wakes the supervisor's select: the idle timer handle completing,
or the watch channel reporting a changed event. -/
inductive Wakeup where
  | timerExpired
  | event (e : ProxyEvent)
  deriving DecidableEq, Repr

/-- The supervisor's mutable state: the tracked children vector and the
readiness gate it notifies. -/
structure SupState where
  children : List ChildProc
  gate : NotifyState
  deriving DecidableEq, Repr

/-- One iteration of the process_handler loop body (main.rs lines 88-137):
the select races the timer handle against the watch receiver; the expiry
arm drains and tears down every tracked child; DestinationNotResponding
spawns a child (spawnResult models the spawn_child call, whose error the
? operator propagates out of the loop), tracks it and notifies the gate;
UnknownError returns Err from the loop; GotPacket resets the timer guard
(no state change); Nothing is a no-op. -/
def supervisorStep (grace : Nat) (spawnResult : Except String ChildProc)
    (s : SupState) : Wakeup → Except String SupState
  | Wakeup.timerExpired =>
      Except.ok { s with children := (handleTimerExpiry grace s.children).2 }
  | Wakeup.event ProxyEvent.DestinationNotResponding =>
      match spawnResult with
      | Except.ok c =>
          let r := handleDestinationNotResponding s.children c s.gate
          Except.ok { children := r.children, gate := r.gate }
      | Except.error e => Except.error e
  | Wakeup.event ProxyEvent.UnknownError => Except.error "Some unknown error occured"
  | Wakeup.event ProxyEvent.GotPacket => Except.ok s
  | Wakeup.event ProxyEvent.Nothing => Except.ok s

/-- The process_handler loop (main.rs lines 87-138) run over a finite list
of wake-ups: each iteration handles one wake-up with supervisorStep; an
Err return ends the loop immediately, leaving the remaining wake-ups
unprocessed; an exhausted list means the loop is still running. -/
def supervisorLoop (grace : Nat) (spawnResult : Except String ChildProc) :
    SupState → List Wakeup → Except String SupState
  | s, [] => Except.ok s
  | s, w :: ws =>
      match supervisorStep grace spawnResult s w with
      | Except.ok s2 => supervisorLoop grace spawnResult s2 ws
      | Except.error e => Except.error e

/-- The tail of main (main.rs lines 143-159): main awaits the proxy's
start; a proxy error is propagated by the ? operator, exiting main with
that error (a non-zero process outcome) — this is the path taken when
UnknownError is published, since the TCP proxy publishes it exactly when
breaking out of start with Err; only when the proxy returns cleanly does
main await the process_handler task and return its result. -/
def programOutcome (proxyResult : Except ErrorKind Unit)
    (handlerResult : Except String Unit) : Except String Unit :=
  match proxyResult with
  | Except.error k => Except.error (reprStr k)
  | Except.ok _ => handlerResult

/-- C5: on observing an UnknownError event the supervisor's loop returns
an error at once — its result is the same for every list of later
wake-ups, so no further event or timer expiry is processed — and a
whole-program outcome built from any erroring component is itself an
error, i.e. a non-zero process exit. -/
theorem unknown_error_halts_supervision (grace : Nat)
    (spawnResult : Except String ChildProc) (s : SupState) (ws : List Wakeup) :
    supervisorLoop grace spawnResult s (Wakeup.event ProxyEvent.UnknownError :: ws)
        = Except.error "Some unknown error occured" ∧
      (∀ (k : ErrorKind) (h : Except String Unit),
        programOutcome (Except.error k) h = Except.error (reprStr k)) := by
  exact ⟨rfl, fun k h => rfl⟩

/-- Witness for C5: the loop halts on UnknownError even with a GotPacket
and a timer expiry still queued behind it. -/
theorem unknown_error_halts_supervision_witness :
    supervisorLoop 4 (Except.ok ⟨2, true, true⟩) ⟨[], ⟨false, 0⟩⟩
        [Wakeup.event ProxyEvent.UnknownError, Wakeup.event ProxyEvent.GotPacket,
          Wakeup.timerExpired]
        = Except.error "Some unknown error occured" ∧
      programOutcome (Except.error ErrorKind.ConnectionReset) (Except.ok ())
        = Except.error (reprStr ErrorKind.ConnectionReset) :=
  ⟨(unknown_error_halts_supervision 4 (Except.ok ⟨2, true, true⟩) ⟨[], ⟨false, 0⟩⟩
      [Wakeup.event ProxyEvent.GotPacket, Wakeup.timerExpired]).1,
   (unknown_error_halts_supervision 4 (Except.ok ⟨2, true, true⟩) ⟨[], ⟨false, 0⟩⟩
      []).2 ErrorKind.ConnectionReset (Except.ok ())⟩

/-! ## TCP proxy: the byte-forwarding loop pipe_sockets
(src/proxy/mod.rs lines 39-64) -/

/-- The buffer size of pipe_sockets (proxy/mod.rs line 52): each read
returns at most this many bytes. -/
def BUFFER_SIZE : Nat := 1536

/-- One observation of the environment by an iteration of the pipe_sockets
loop: a read returning bytes (with writeOk telling whether the following
write_all of those bytes succeeds — irrelevant when bytes is empty, since
a zero-length read breaks before writing), or a read error. -/
inductive ReadEvent where
  | data (bytes : List Nat) (writeOk : Bool)
  | readErr
  deriving DecidableEq, Repr

/-- How one direction's forwarding task ends. -/
inductive PipeOutcome where
  | done
  | failed
  | pending
  deriving DecidableEq, Repr

/-- The pipe_sockets loop (proxy/mod.rs lines 54-61) of one direction,
driven by the list of successive read observations: read into the buffer;
a read error propagates via ? and the task returns Err; bytes_read = 0
breaks the loop and the task returns Ok; otherwise write_all the bytes
just read (a write error propagates via ? and the task returns Err) and
publish GotPacket with send_replace.  Returns the chunks written to the
peer in order, the number of GotPacket publications, and the task's
outcome (pending when the observation list runs out mid-stream). -/
def pipeSockets : List ReadEvent → List (List Nat) × Nat × PipeOutcome
  | [] => ([], 0, PipeOutcome.pending)
  | ReadEvent.readErr :: _ => ([], 0, PipeOutcome.failed)
  | ReadEvent.data bytes writeOk :: rest =>
      if bytes.length = 0 then ([], 0, PipeOutcome.done)
      else if writeOk then
        ((pipeSockets rest).1.cons bytes, (pipeSockets rest).2.1 + 1,
          (pipeSockets rest).2.2)
      else ([], 0, PipeOutcome.failed)

/-- The chunks the loop is expected to forward: the non-empty reads, in
order, up to the first terminating observation (zero-length read, read
error, or failing write). -/
def forwardedReads : List ReadEvent → List (List Nat)
  | [] => []
  | ReadEvent.readErr :: _ => []
  | ReadEvent.data bytes writeOk :: rest =>
      if bytes.length = 0 then []
      else if writeOk then bytes :: forwardedReads rest
      else []

/-- C6: for every byte stream read by one direction of pipe_sockets whose
reads fit the 1536-byte buffer, the bytes written to the peer are exactly
the bytes read, in order, in non-empty chunks of at most 1536 bytes; one
GotPacket is published per forwarded chunk, i.e. after every non-empty
forward; a zero-length read ends the task with Ok whatever follows; and a
read error ends the task with Err (as does a write error, via the writeOk
flag of the terminating read). -/
theorem pipe_sockets_forwards_exactly (reads : List ReadEvent)
    (hsize : ∀ b w, ReadEvent.data b w ∈ reads → b.length ≤ BUFFER_SIZE) :
    (pipeSockets reads).1 = forwardedReads reads ∧
    (∀ c ∈ (pipeSockets reads).1, c.length ≤ BUFFER_SIZE ∧ c ≠ []) ∧
    (pipeSockets reads).2.1 = (pipeSockets reads).1.length ∧
    (∀ (w : Bool) (rest : List ReadEvent),
      pipeSockets (ReadEvent.data [] w :: rest) = ([], 0, PipeOutcome.done)) ∧
    (∀ rest : List ReadEvent,
      pipeSockets (ReadEvent.readErr :: rest) = ([], 0, PipeOutcome.failed)) := by
  refine ⟨?_, ?_, ?_, fun w rest => rfl, fun rest => rfl⟩
  · induction reads with
    | nil => rfl
    | cons r rest ih =>
        match r with
        | ReadEvent.readErr => rfl
        | ReadEvent.data bytes writeOk =>
            by_cases hb : bytes.length = 0
            · simp [pipeSockets, forwardedReads, hb]
            · cases writeOk
              · simp [pipeSockets, forwardedReads, hb]
              · have ihr := ih (fun b w hm => hsize b w (List.mem_cons_of_mem _ hm))
                simp [pipeSockets, forwardedReads, hb, ihr]
  · induction reads with
    | nil => simp [pipeSockets]
    | cons r rest ih =>
        match r with
        | ReadEvent.readErr => simp [pipeSockets]
        | ReadEvent.data bytes writeOk =>
            by_cases hb : bytes.length = 0
            · simp [pipeSockets, hb]
            · cases writeOk
              · simp [pipeSockets, hb]
              · have ihr := ih (fun b w hm => hsize b w (List.mem_cons_of_mem _ hm))
                intro c hc
                rcases List.mem_cons.mp (by simpa [pipeSockets, hb] using hc) with rfl | hc2
                · exact ⟨hsize c true (List.mem_cons_self _ _),
                    fun he => hb (by simp [he])⟩
                · exact ihr c hc2
  · induction reads with
    | nil => rfl
    | cons r rest ih =>
        match r with
        | ReadEvent.readErr => rfl
        | ReadEvent.data bytes writeOk =>
            by_cases hb : bytes.length = 0
            · simp [pipeSockets, hb]
            · cases writeOk
              · simp [pipeSockets, hb]
              · have ihr := ih (fun b w hm => hsize b w (List.mem_cons_of_mem _ hm))
                simp [pipeSockets, hb, ihr]

/-- Witness for C6 on a concrete stream: two forwarded chunks, then a
clean zero-length read; two GotPacket publications; outcome Ok. -/
theorem pipe_sockets_forwards_exactly_witness :
    pipeSockets
        [ReadEvent.data [10, 11] true, ReadEvent.data [12] true,
          ReadEvent.data [] true, ReadEvent.data [13] true]
      = ([[10, 11], [12]], 2, PipeOutcome.done) ∧
      (pipeSockets
          [ReadEvent.data [10, 11] true, ReadEvent.data [12] true,
            ReadEvent.data [] true, ReadEvent.data [13] true]).1
        = forwardedReads
            [ReadEvent.data [10, 11] true, ReadEvent.data [12] true,
              ReadEvent.data [] true, ReadEvent.data [13] true] :=
  ⟨by decide,
   (pipe_sockets_forwards_exactly
      [ReadEvent.data [10, 11] true, ReadEvent.data [12] true,
        ReadEvent.data [] true, ReadEvent.data [13] true]
      (by intro b w hm; fin_cases hm <;> simp [BUFFER_SIZE])).1⟩

/-! ## UDP proxy: the receive loop and per-client sessions
(src/proxy/udp.rs lines 57-167) -/

/-- A socket address as the UDP loop keys its client map: the client_id is
the Display rendering of the SocketAddr (udp.rs line 78), so addresses
are compared as their string renderings. -/
abbrev Addr := String

/-- A client's session entry in the map: the stored value is the sending
end of the session's inbound queue (client_sender); alive records whether
a send on it succeeds, i.e. whether the session's receiver task is still
running (udp.rs lines 96-156). -/
structure ClientSession where
  alive : Bool
  deriving DecidableEq, Repr

/-- The handling of the queue send's result (udp.rs lines 158-165): on Ok
nothing happens; on Err the error is logged, the client's entry is
removed from the map, and DestinationNotResponding is published on the
watch channel.  Returns the new map and the events published. -/
def handleQueueSend (map : List (Addr × ClientSession)) (clientId : Addr)
    (sendOk : Bool) : List (Addr × ClientSession) × List ProxyEvent :=
  if sendOk then (map, [])
  else (map.eraseP (fun p => p.1 == clientId),
    [ProxyEvent.DestinationNotResponding])

/-- Result of one iteration of the UDP receive loop. -/
structure UdpStepResult where
  map : List (Addr × ClientSession)
  events : List ProxyEvent
  sessionUsed : Bool
  deriving DecidableEq, Repr

/-- One iteration of the receive loop of UDPProxy::start (udp.rs lines
74-166) for a datagram arriving from src: first — before any address
check — GotPacket is sent on the watch channel (line 80); then, if src
equals the configured destination, the datagram is ignored and the loop
continues (lines 81-86: no session looked up, created or used); otherwise
the entry API looks the client up in the map, lazily inserting a fresh
session (whose just-created queue accepts sends) for an unseen address
(lines 96-156), and the payload is sent onto the session's inbound queue,
the result handled by handleQueueSend (lines 158-165).  sessionUsed
records whether a session was looked up (or created) and its queue sent
to. -/
def udpStep (destination : Addr) (map : List (Addr × ClientSession))
    (src : Addr) : UdpStepResult :=
  let events := [ProxyEvent.GotPacket]
  if src = destination then
    { map := map, events := events, sessionUsed := false }
  else
    match map.lookup src with
    | some s =>
        let r := handleQueueSend map src s.alive
        { map := r.1, events := events ++ r.2, sessionUsed := true }
    | none =>
        let map1 := map ++ [(src, ClientSession.mk true)]
        let r := handleQueueSend map1 src true
        { map := r.1, events := events ++ r.2, sessionUsed := true }

/-- Counterexample to C7: a datagram whose source address equals the
configured destination address still causes a GotPacket publication — the
notification at udp.rs line 80 precedes the source check at line 81 — so
GotPacket is not published only for datagrams from other sources. -/
theorem udp_got_packet_even_from_destination :
    (udpStep "127.0.0.1:9000" [] "127.0.0.1:9000").events = [ProxyEvent.GotPacket] ∧
      (udpStep "127.0.0.1:9000" [] "127.0.0.1:9000").sessionUsed = false := by
  constructor <;> rfl

/-- C7 (amended): every datagram received by the UDP proxy causes a
GotPacket publication, including one whose source address equals the
configured destination address — the notification precedes the source
check; a destination-sourced datagram is otherwise ignored: the map is
unchanged, no session is created or used, and GotPacket is the only event
published; only for a datagram from any other source is the client
session then looked up or lazily created and used. -/
theorem udp_ignores_echo_but_still_publishes (destination src : Addr)
    (map : List (Addr × ClientSession)) :
    ProxyEvent.GotPacket ∈ (udpStep destination map src).events ∧
    (src = destination →
       (udpStep destination map src).map = map ∧
       (udpStep destination map src).sessionUsed = false ∧
       (udpStep destination map src).events = [ProxyEvent.GotPacket]) ∧
    (src ≠ destination → (udpStep destination map src).sessionUsed = true) := by
  refine ⟨?_, fun h => ?_, fun h => ?_⟩
  · by_cases h : src = destination
    · simp [udpStep, h]
    · cases hl : map.lookup src <;>
        simp [udpStep, h, hl, handleQueueSend]
  · simp [udpStep, h]
  · cases hl : map.lookup src <;> simp [udpStep, h, hl, handleQueueSend]

/-- Witness for C7's amended theorem: a datagram from the destination
itself leaves the map alone and uses no session, yet publishes
GotPacket. -/
theorem udp_ignores_echo_but_still_publishes_witness :
    (udpStep "10.0.0.7:53" [("1.2.3.4:999", ClientSession.mk true)] "10.0.0.7:53").map
        = [("1.2.3.4:999", ClientSession.mk true)] ∧
      (udpStep "10.0.0.7:53" [("1.2.3.4:999", ClientSession.mk true)] "10.0.0.7:53").sessionUsed
        = false ∧
      (udpStep "10.0.0.7:53" [("1.2.3.4:999", ClientSession.mk true)] "10.0.0.7:53").events
        = [ProxyEvent.GotPacket] :=
  (udp_ignores_echo_but_still_publishes "10.0.0.7:53" "10.0.0.7:53"
    [("1.2.3.4:999", ClientSession.mk true)]).2.1 rfl

/-- C8: whenever the send of a received datagram onto a client session's
inbound queue fails (the session's tasks have exited), that client's
entry is removed from the map and DestinationNotResponding is published;
a successful send leaves the map handleQueueSend was given unchanged and
publishes no such event.  Instantiated on the full loop iteration: a dead
session is evicted and DestinationNotResponding published; a live session
leaves the map unchanged with no such event; an unseen client gains
exactly its freshly created entry, again with no such event. -/
theorem udp_queue_send_failure_evicts_session (destination src : Addr)
    (map : List (Addr × ClientSession)) (hne : src ≠ destination) :
    handleQueueSend map src false
        = (map.eraseP (fun p => p.1 == src), [ProxyEvent.DestinationNotResponding]) ∧
    handleQueueSend map src true = (map, []) ∧
    (map.lookup src = some (ClientSession.mk false) →
       (udpStep destination map src).map = map.eraseP (fun p => p.1 == src) ∧
       ProxyEvent.DestinationNotResponding ∈ (udpStep destination map src).events) ∧
    (map.lookup src = some (ClientSession.mk true) →
       (udpStep destination map src).map = map ∧
       ProxyEvent.DestinationNotResponding ∉ (udpStep destination map src).events) ∧
    (map.lookup src = none →
       (udpStep destination map src).map = map ++ [(src, ClientSession.mk true)] ∧
       ProxyEvent.DestinationNotResponding ∉ (udpStep destination map src).events) := by
  refine ⟨rfl, rfl, fun hl => ?_, fun hl => ?_, fun hl => ?_⟩
  · simp [udpStep, hne, hl, handleQueueSend]
  · simp [udpStep, hne, hl, handleQueueSend]
  · simp [udpStep, hne, hl, handleQueueSend]

/-- Witness for C8: a dead session for a known client is evicted and
DestinationNotResponding is published for it. -/
theorem udp_queue_send_failure_evicts_session_witness :
    (udpStep "9.9.9.9:53" [("8.8.8.8:1000", ClientSession.mk false)] "8.8.8.8:1000").map
        = [] ∧
      ProxyEvent.DestinationNotResponding ∈
        (udpStep "9.9.9.9:53" [("8.8.8.8:1000", ClientSession.mk false)] "8.8.8.8:1000").events := by
  have h := (udp_queue_send_failure_evicts_session "9.9.9.9:53" "8.8.8.8:1000"
    [("8.8.8.8:1000", ClientSession.mk false)] (by decide)).2.2.1 (by decide)
  exact ⟨by rw [h.1]; decide, h.2⟩

/-! ## Child spawning (src/child/mod.rs lines 56-74) -/

/-- Helper: split a character list on spaces, dropping empty words; cur
accumulates the current word reversed. -/
def splitWs : List Char → List Char → List String
  | [], cur => if cur.isEmpty then [] else [String.mk cur.reverse]
  | c :: rest, cur =>
      if c = ' ' then
        if cur.isEmpty then splitWs rest []
        else String.mk cur.reverse :: splitWs rest []
      else splitWs rest (c :: cur)

/-- Modelled from the shell_words crate's split function called by
spawn_child (child/mod.rs line 57): for command strings without quoting
or escaping it splits on whitespace dropping empty words and cannot fail
(its only error is an unbalanced quote), so an empty or all-whitespace
command string yields Ok of the empty word list. -/
def shellWordsSplit (cmd : String) : Except String (List String) :=
  Except.ok (splitWs cmd.data [])

/-- How a call of spawn_child ends: an Ok child built from the executable
and argument list, an error returned to the caller, or a panic —
an abnormal termination that is not an error value. -/
inductive SpawnResult where
  | ok (exe : String) (args : List String)
  | error (msg : String)
  | panic (msg : String)
  deriving DecidableEq, Repr

/-- spawn_child (child/mod.rs lines 56-74): split the command string with
shell_words::split, propagating its error with ?; then build
Command::new(cmd_words[0]) with args(cmd_words[1..]) and spawn it,
propagating a spawn error with ? (spawnOk models the OS call's success).
The indexing cmd_words[0] is an unchecked Vec index: when the split
produced no words it panics with an index-out-of-bounds rather than
returning an error. -/
def spawn_child (cmd : String) (spawnOk : Bool) : SpawnResult :=
  match shellWordsSplit cmd with
  | Except.error e => SpawnResult.error e
  | Except.ok [] => SpawnResult.panic "index out of bounds"
  | Except.ok (w :: ws) =>
      if spawnOk then SpawnResult.ok w ws else SpawnResult.error "spawn failed"

/-- C9 (failing input): an empty command string — and likewise an
all-whitespace one — parses to an empty word list, and spawn_child then
panics at the indexing cmd_words[0] instead of returning an error value;
a non-empty command is spawned normally, so the claim fails only on
commands that parse to no words. -/
theorem spawn_child_panics_on_empty_command :
    spawn_child "" true = SpawnResult.panic "index out of bounds" ∧
      spawn_child "   " true = SpawnResult.panic "index out of bounds" ∧
      spawn_child "echo hi" true = SpawnResult.ok "echo" ["hi"] ∧
      spawn_child "echo hi" false = SpawnResult.error "spawn failed" := by
  refine ⟨rfl, rfl, ?_, ?_⟩ <;> decide

/-! ## The supervisor loop's timer lifecycle (src/main.rs lines 85-139) -/

/-- The timer-lifecycle actions of the process_handler loop, tagged with
the iteration number: line 88 creates the iteration's timer task via
run_after; lines 89-135 handle whichever wake-up the select delivers
(timer expiry or any event, GotPacket included — every arm falls through
to the same cleanup); line 137 aborts the iteration's timer handle. -/
inductive LoopAction where
  | createTimer (i : Nat)
  | handleWake (i : Nat)
  | abortTimer (i : Nat)
  deriving DecidableEq, Repr

/-- The actions of one completed iteration of the loop body, in program
order: create the timer, handle the wake-up, abort the timer. -/
def iterationActions (i : Nat) : List LoopAction :=
  [LoopAction.createTimer i, LoopAction.handleWake i, LoopAction.abortTimer i]

/-- The action trace of n completed iterations of the process_handler
loop (an iteration that instead returns early via ? or the UnknownError
arm ends the loop, so no later iteration exists after it). -/
def processHandlerTrace (n : Nat) : List LoopAction :=
  concatMap iterationActions (List.range n)

/-- Effect of one action on the list of live timer-task ids: create adds
the new task, handling a wake-up changes nothing, abort removes the task
(a timer that already fired is likewise not live after its abort, so this
is an upper bound on liveness). -/
def liveStep (live : List Nat) : LoopAction → List Nat
  | LoopAction.createTimer i => live ++ [i]
  | LoopAction.handleWake _ => live
  | LoopAction.abortTimer i => live.eraseP (fun j => j == i)

/-- Live timer tasks after running a list of actions from a start state. -/
def liveTimersFrom (live : List Nat) (as : List LoopAction) : List Nat :=
  as.foldl liveStep live

/-- All intermediate live-timer states along a list of actions, the start
state included. -/
def liveAlong (live : List Nat) : List LoopAction → List (List Nat)
  | [] => [live]
  | a :: as => live :: liveAlong (liveStep live a) as

/-- Helper: concatMap distributes over append. -/
theorem concatMap_append {α β : Type} (f : α → List β) (l1 l2 : List α) :
    concatMap f (l1 ++ l2) = concatMap f l1 ++ concatMap f l2 := by
  induction l1 with
  | nil => rfl
  | cons a l ih => simp [concatMap, ih]

/-- Helper: a state reached along an appended action list is reached
along the first part, or along the second from the first part's final
state. -/
theorem mem_liveAlong_append {s : List Nat} :
    ∀ (as bs : List LoopAction) (live : List Nat),
      s ∈ liveAlong live (as ++ bs) →
      s ∈ liveAlong live as ∨ s ∈ liveAlong (liveTimersFrom live as) bs
  | [], bs, live, h => Or.inr (by simpa [liveTimersFrom] using h)
  | a :: as, bs, live, h => by
      rcases List.mem_cons.mp (by simpa [liveAlong] using h) with rfl | h2
      · exact Or.inl (List.mem_cons_self _ _)
      · rcases mem_liveAlong_append as bs (liveStep live a) h2 with h3 | h3
        · exact Or.inl (List.mem_cons_of_mem _ h3)
        · exact Or.inr (by simpa [liveTimersFrom] using h3)

/-- Helper: a completed iteration maps an empty live set back to empty. -/
theorem liveTimersFrom_iteration (i : Nat) :
    liveTimersFrom [] (iterationActions i) = [] := by
  simp [liveTimersFrom, iterationActions, liveStep]

/-- Helper: after n completed iterations no timer task is live. -/
theorem liveTimersFrom_trace (n : Nat) :
    liveTimersFrom [] (processHandlerTrace n) = [] := by
  induction n with
  | zero => rfl
  | succ n ih =>
      rw [processHandlerTrace, List.range_succ, concatMap_append, liveTimersFrom,
        List.foldl_append]
      rw [processHandlerTrace, liveTimersFrom] at ih
      rw [ih]
      simpa [liveTimersFrom] using liveTimersFrom_iteration n

/-- Helper: along one iteration started with no live timer, the live set
is empty or the iteration's own timer alone. -/
theorem mem_liveAlong_iteration {s : List Nat} (i : Nat)
    (h : s ∈ liveAlong [] (iterationActions i)) : s = [] ∨ s = [i] := by
  simp [iterationActions, liveAlong, liveStep] at h
  tauto

/-- Helper: every live-timer state along the trace of the loop is empty
or a single timer. -/
theorem mem_liveAlong_trace {s : List Nat} :
    ∀ n : Nat, s ∈ liveAlong [] (processHandlerTrace n) → s = [] ∨ ∃ i, s = [i]
  | 0, h => Or.inl (by simpa [processHandlerTrace, concatMap, liveAlong] using h)
  | n + 1, h => by
      rw [processHandlerTrace, List.range_succ, concatMap_append] at h
      rcases mem_liveAlong_append _ _ _ h with h2 | h2
      · exact mem_liveAlong_trace n h2
      · rw [show concatMap iterationActions (List.range n) = processHandlerTrace n from rfl,
          liveTimersFrom_trace n] at h2
        rcases mem_liveAlong_iteration n h2 with h3 | h3
        · exact Or.inl h3
        · exact Or.inr ⟨n, h3⟩

/-- C10: at every point along any number of completed iterations of the
supervisor's control loop there is at most one live idle-timer task —
each iteration's timer is aborted after the wake-up is handled and before
the next iteration creates a fresh one — and after each completed
iteration no timer is live at all, so no stale timer from a previous
iteration exists during a later one. -/
theorem at_most_one_live_timer (n : Nat) :
    (∀ s ∈ liveAlong [] (processHandlerTrace n), s.length ≤ 1) ∧
      liveTimersFrom [] (processHandlerTrace n) = [] := by
  refine ⟨fun s hs => ?_, liveTimersFrom_trace n⟩
  rcases mem_liveAlong_trace n hs with h | ⟨i, h⟩ <;> simp [h]

/-- Witness for C10 on the trace of two completed iterations, at the
state where the second iteration's timer is the one live task. -/
theorem at_most_one_live_timer_witness :
    [1].length ≤ 1 ∧ liveTimersFrom [] (processHandlerTrace 2) = [] :=
  ⟨(at_most_one_live_timer 2).1 [1] (by decide), (at_most_one_live_timer 2).2⟩

end ServerKnocker
